import Mathlib

/-!
Verification of the synthetic support-ticket generator (`dataset_generation.py`).

The generator is a batch loop: for each ticket index it draws random values
(open date offsets, product/issue/priority/agent choices, a reopen-eligibility
draw, Gamma-distributed resolution durations, an outlier draw and factor,
weekend-adjustment draws, a reopen delay, a resolved-again draw and a second
Gamma duration, a resolution-text choice) and deterministically maps those
draws to one output record.  We embed that mapping shallowly: the random draws
of one ticket become an explicit `TicketDraws` bundle, a whole run takes an
oracle `Nat → TicketDraws` giving the draws of each ticket, and time is
rational hours since 2024-01-01 00:00 (a Monday), the generator's
`start_date`.  Python's `datetime` arithmetic on hour/minute/day deltas is
exact rational arithmetic in these units; `strftime('%m/%d/%Y %H:%M')`
truncates a timestamp to its calendar minute, embedded as `toMin` (floor of
total minutes).  The `while` loop that pushes weekend closes forward is the
only unbounded construct; it is embedded fuel-indexed (`weekendLoop`), with
`none` meaning the loop has not exited within the given fuel.
-/

set_option maxHeartbeats 1000000

/-- One ticket's random draws, in the order the source samples them.
`weekendDraws i = true` models the i-th `random.random() < 0.7` draw of the
weekend-adjustment loop succeeding.  Index draws (`productChoice`, …) model
`random.choice` / weighted choice by selecting into the fixed lists. -/
structure TicketDraws where
  daysOffset : Nat
  hourOff : Nat
  minOff : Nat
  productChoice : Nat
  issueChoice : Nat
  priorityChoice : Nat
  agentChoice : Nat
  reopenDraw : ℚ
  gamma1 : ℚ
  outlierDraw : ℚ
  outlierFactor : ℚ
  weekendDraws : Nat → Bool
  reopenOffsetH : Nat
  resolveAgainDraw : ℚ
  gamma2 : ℚ
  resChoice : Nat

/-- The ranges the Python random primitives guarantee for each draw:
`randint(0,365)`, `randint(0,23)`, `randint(0,59)`, `random() ∈ [0,1)`,
Gamma samples are nonnegative, `uniform(3,8) ∈ [3,8]`, `randint(1,168)`. -/
def TicketDraws.Valid (dr : TicketDraws) : Prop :=
  dr.daysOffset ≤ 365 ∧ dr.hourOff ≤ 23 ∧ dr.minOff ≤ 59 ∧
  0 ≤ dr.reopenDraw ∧ 0 ≤ dr.gamma1 ∧ 0 ≤ dr.outlierDraw ∧
  3 ≤ dr.outlierFactor ∧ dr.outlierFactor ≤ 8 ∧
  1 ≤ dr.reopenOffsetH ∧ dr.reopenOffsetH ≤ 168 ∧
  0 ≤ dr.resolveAgainDraw ∧ 0 ≤ dr.gamma2

/-- `products = ['Aether', 'Dynamo', 'Pulse']`. -/
def products : List String := ["Aether", "Dynamo", "Pulse"]

/-- `issue_types[product]`, the per-product issue vocabulary. -/
def issueTypes (product : String) : List String :=
  if product = "Aether" then
    ["Login Issue", "Payment Failure", "Performance Issue", "Data Sync Error", "UI Bug"]
  else if product = "Dynamo" then
    ["Software Crash", "Integration Error", "Performance Issue", "Configuration Problem",
      "Data Loss"]
  else
    ["Network Failure", "Connection Timeout", "Service Unavailable", "Authentication Error",
      "Sync Issue"]

/-- `priorities = ['Low', 'Medium', 'High', 'Critical']`. -/
def priorities : List String := ["Low", "Medium", "High", "Critical"]

/-- `support_agents = ['Alice', 'Bob', 'Charlie', 'Diana', 'Eve', 'Frank']`. -/
def supportAgents : List String := ["Alice", "Bob", "Charlie", "Diana", "Eve", "Frank"]

/-- `target_reopen_rate = 0.132`. -/
def targetReopenRate : ℚ := 132 / 1000

/-- `current_time = datetime(2024, 12, 31)`: hours from `start_date`
(2024-01-01) to the horizon cutoff, 365 days in the leap year 2024. -/
def currentTime : ℚ := 8760

/-- `date_opened`: `start_date + timedelta(days=days_offset, hours=…, minutes=…)`
in hours since `start_date`. -/
def dateOpenedQ (dr : TicketDraws) : ℚ :=
  24 * dr.daysOffset + dr.hourOff + (dr.minOff : ℚ) / 60

/-- `base_hours`: the Gamma sample.  All four priority branches of the source
draw from `np.random.gamma` with priority-dependent shape/scale; under the
draw oracle the sampled value is the oracle's `gamma1` in every branch. -/
def baseHours (dr : TicketDraws) : ℚ := dr.gamma1

/-- `resolution_hours = max(0.1, base_hours * (target_full_resolution_hours / 4.0))`
with `target_full_resolution_hours = 4.2`. -/
def resolutionHoursPre (dr : TicketDraws) : ℚ :=
  max (1 / 10) (baseHours dr * (21 / 20))

/-- The outlier step: `if random.random() < 0.1: resolution_hours *= uniform(3, 8)`. -/
def resolutionHours (dr : TicketDraws) : ℚ :=
  if dr.outlierDraw < 1 / 10 then resolutionHoursPre dr * dr.outlierFactor
  else resolutionHoursPre dr

/-- `date_closed = date_opened + timedelta(hours=resolution_hours)` before the
weekend adjustment. -/
def dateClosedRaw (dr : TicketDraws) : ℚ :=
  dateOpenedQ dr + resolutionHours dr

/-- `t.weekday()` of the calendar day holding hour-timestamp `t`: Monday = 0 …
Sunday = 6; day 0 (2024-01-01) is a Monday. -/
def pyWeekday (t : ℚ) : ℤ := ⌊t / 24⌋ % 7

/-- The weekend-adjustment loop
`while date_closed.weekday() > 4: if random.random() < 0.7: date_closed += timedelta(days=2)`,
fuel-indexed: each iteration consumes one draw of the stream; `none` means the
loop has not exited within `fuel` iterations. -/
def weekendLoop : Nat → ℚ → (Nat → Bool) → Option ℚ
  | 0, d, _ => if pyWeekday d ≤ 4 then some d else none
  | fuel + 1, d, s =>
    if pyWeekday d ≤ 4 then some d
    else weekendLoop fuel (if s 0 then d + 48 else d) (fun i => s (i + 1))

/-- The per-issue resolution vocabulary of `get_resolution`. -/
def resolutionsFor (issue : String) : Option (List String) :=
  if issue = "Login Issue" then
    some ["Reset User Password", "Fixed Authentication Service", "Updated User Credentials"]
  else if issue = "Payment Failure" then
    some ["Informed Billing Team", "Updated Payment Method", "Resolved Gateway Issue"]
  else if issue = "Performance Issue" then
    some ["Optimized Database Query", "Increased Server Resources", "Fixed Memory Leak"]
  else if issue = "Software Crash" then
    some ["Applied Software Patch", "Fixed Memory Exception", "Updated Dependencies"]
  else if issue = "Network Failure" then
    some ["Restored Network Connection", "Fixed DNS Configuration", "Replaced Network Hardware"]
  else if issue = "Data Sync Error" then
    some ["Resynced Data", "Fixed Sync Configuration", "Resolved Data Conflict"]
  else if issue = "UI Bug" then
    some ["Fixed UI Component", "Updated User Interface", "Resolved Display Issue"]
  else if issue = "Integration Error" then
    some ["Fixed API Connection", "Updated Integration Settings", "Resolved Authentication"]
  else if issue = "Configuration Problem" then
    some ["Updated Configuration", "Fixed Settings", "Restored Default Config"]
  else if issue = "Data Loss" then
    some ["Restored from Backup", "Recovered Data", "Implemented Data Recovery"]
  else if issue = "Connection Timeout" then
    some ["Increased Timeout Settings", "Fixed Network Configuration", "Optimized Connection"]
  else if issue = "Service Unavailable" then
    some ["Restarted Service", "Fixed Service Configuration", "Resolved Server Issue"]
  else if issue = "Authentication Error" then
    some ["Reset Authentication", "Updated Credentials", "Fixed Auth Service"]
  else if issue = "Sync Issue" then
    some ["Fixed Synchronization", "Updated Sync Settings", "Resolved Sync Conflict"]
  else none

/-- The suffix `' - Reopened Issue Addressed'` appended for post-reopen resolutions. -/
def reopenSuffix : String := " - Reopened Issue Addressed"

/-- `get_resolution(issue, is_reopened)`: uniform choice from the issue's
vocabulary (the `choice` draw selects the element), suffix appended when the
resolution follows a reopen, fallback `'Issue Resolved'` for unknown issues. -/
def getResolution (issue : String) (choice : Nat) (isReopened : Bool) : String :=
  match resolutionsFor issue with
  | some l => l.getD (choice % l.length) "Issue Resolved" ++
      (if isReopened then reopenSuffix else "")
  | none => "Issue Resolved" ++ (if isReopened then reopenSuffix else "")

/-- Truncation of an hour-timestamp to its calendar minute, as performed by
`strftime('%m/%d/%Y %H:%M')`: total minutes since `start_date`, floor. -/
def toMin (t : ℚ) : ℤ := ⌊t * 60⌋

/-- One output record.  `dateOpened` and `dateClosed` hold the minute-precision
timestamps the formatted `MM/DD/YYYY HH:MM` strings denote; `dateClosed = none`
and `resolution = ""` are the empty-string sentinels of the source. -/
structure Ticket where
  ticketID : Nat
  dateOpened : ℤ
  dateClosed : Option ℤ
  product : String
  issue : String
  priority : String
  status : String
  assignedTo : String
  resolution : String

/-- `reopen_date = date_closed + timedelta(hours=randint(1, 168))`. -/
def reopenDate (dr : TicketDraws) (dc : ℚ) : ℚ := dc + dr.reopenOffsetH

/-- `final_close_date = reopen_date + timedelta(hours=second_resolution_hours)`
where `second_resolution_hours = np.random.gamma(2, 1.5)` is the oracle's
`gamma2` draw, used as sampled (the source applies no 0.1-hour floor here). -/
def finalCloseDate (dr : TicketDraws) (dc : ℚ) : ℚ := reopenDate dr dc + dr.gamma2

/-- The status/DateClosed/Resolution outcome tree of lines 88-126, applied to
the weekend-adjusted close date `dc`. -/
def outcome (dr : TicketDraws) (dc : ℚ) (issue : String) : String × Option ℤ × String :=
  if dr.reopenDraw < targetReopenRate then
    if dc < currentTime then
      if reopenDate dr dc < currentTime then
        if dr.resolveAgainDraw < 7 / 10 then
          ("Reopened Closed", some (toMin (finalCloseDate dr dc)),
            getResolution issue dr.resChoice true)
        else ("Reopened Open", none, "")
      else ("Reopened Open", none, "")
    else ("Open", none, "")
  else
    if dc < currentTime then
      ("Closed", some (toMin dc), getResolution issue dr.resChoice false)
    else ("Open", none, "")

/-- `product = random.choice(products)`. -/
def productOf (dr : TicketDraws) : String :=
  products.getD (dr.productChoice % products.length) ""

/-- `issue = random.choice(issue_types[product])`. -/
def issueOf (dr : TicketDraws) : String :=
  (issueTypes (productOf dr)).getD (dr.issueChoice % (issueTypes (productOf dr)).length) ""

/-- `priority = np.random.choice(priorities, p=priority_weights)`: the weighted
draw selects one of the four priorities; the oracle records the selected index. -/
def priorityOf (dr : TicketDraws) : String :=
  priorities.getD (dr.priorityChoice % priorities.length) ""

/-- `assigned_to = random.choice(support_agents)`. -/
def agentOf (dr : TicketDraws) : String :=
  supportAgents.getD (dr.agentChoice % supportAgents.length) ""

/-- The record the loop body builds from draw bundle `dr` once the
weekend-adjusted close date `dc` is known. -/
def ticketFor (ticketId : Nat) (dr : TicketDraws) (dc : ℚ) : Ticket :=
  { ticketID := ticketId
    dateOpened := toMin (dateOpenedQ dr)
    dateClosed := (outcome dr dc (issueOf dr)).2.1
    product := productOf dr
    issue := issueOf dr
    priority := priorityOf dr
    status := (outcome dr dc (issueOf dr)).1
    assignedTo := agentOf dr
    resolution := (outcome dr dc (issueOf dr)).2.2 }

/-- One iteration of the generation loop body for ticket id `ticketId`:
`none` when the weekend-adjustment loop does not exit within `fuel`. -/
def makeTicket (fuel : Nat) (ticketId : Nat) (dr : TicketDraws) : Option Ticket :=
  (weekendLoop fuel (dateClosedRaw dr) dr.weekendDraws).map (ticketFor ticketId dr)

/-- The generation loop from index `i`, producing `n` further tickets with ids
`1001 + i, …`. -/
def generateAux (fuel : Nat) (o : Nat → TicketDraws) : Nat → Nat → Option (List Ticket)
  | _, 0 => some []
  | i, n + 1 =>
    match makeTicket fuel (1001 + i) (o i) with
    | none => none
    | some t => (generateAux fuel o (i + 1) n).map (fun ts => t :: ts)

/-- `generate_support_tickets(num_tickets)`: `range(1001, 1001 + num_tickets)`
iterates `max 0 num_tickets` times, so a non-positive count yields the empty
list; the function body raises no exception on any input. -/
def generate (fuel : Nat) (o : Nat → TicketDraws) (numTickets : ℤ) : Option (List Ticket) :=
  generateAux fuel o 0 numTickets.toNat

/-- `'Reopened' in t['Status']` for the four status literals of the source. -/
def isReopenedStatus (s : String) : Bool :=
  s = "Reopened Open" || s = "Reopened Closed"

/-- `reopened_tickets` of `print_kpi_analysis`. -/
def reopenedTicketCount (ts : List Ticket) : Nat :=
  (ts.filter (fun t => isReopenedStatus t.status)).length

/-- The actual reopen rate `reopened_tickets / total_tickets`. -/
def reopenRate (ts : List Ticket) : ℚ :=
  (reopenedTicketCount ts : ℚ) / (ts.length : ℚ)

/-! ### Basic facts about the weekend-adjustment loop -/

theorem weekendLoop_weekday_le (fuel : Nat) :
    ∀ (d : ℚ) (s : Nat → Bool) (d2 : ℚ), weekendLoop fuel d s = some d2 → pyWeekday d2 ≤ 4 := by
  induction fuel with
  | zero =>
    intro d s d2 h
    unfold weekendLoop at h
    split at h
    · cases h; assumption
    · cases h
  | succ fuel ih =>
    intro d s d2 h
    unfold weekendLoop at h
    split at h
    · cases h; assumption
    · exact ih _ _ _ h

theorem weekendLoop_le (fuel : Nat) :
    ∀ (d : ℚ) (s : Nat → Bool) (d2 : ℚ), weekendLoop fuel d s = some d2 → d ≤ d2 := by
  induction fuel with
  | zero =>
    intro d s d2 h
    unfold weekendLoop at h
    split at h
    · cases h; exact le_refl _
    · cases h
  | succ fuel ih =>
    intro d s d2 h
    unfold weekendLoop at h
    split at h
    · cases h; exact le_refl _
    · refine le_trans ?_ (ih _ _ _ h)
      split <;> linarith

theorem weekendLoop_stuck (fuel : Nat) :
    ∀ (d : ℚ) (s : Nat → Bool), ¬ pyWeekday d ≤ 4 → (∀ i, s i = false) →
      weekendLoop fuel d s = none := by
  induction fuel with
  | zero =>
    intro d s hw _
    unfold weekendLoop
    simp [hw]
  | succ fuel ih =>
    intro d s hw hs
    unfold weekendLoop
    simp only [hw, if_false, hs 0]
    exact ih d _ hw (fun i => hs (i + 1))

theorem weekendLoop_succ (fuel : Nat) :
    ∀ (d : ℚ) (s : Nat → Bool) (d2 : ℚ), weekendLoop fuel d s = some d2 →
      weekendLoop (fuel + 1) d s = some d2 := by
  induction fuel with
  | zero =>
    intro d s d2 h
    unfold weekendLoop at h
    split at h
    · cases h
      unfold weekendLoop
      simp_all
    · cases h
  | succ fuel ih =>
    intro d s d2 h
    unfold weekendLoop at h
    split at h
    · cases h
      unfold weekendLoop
      simp_all
    · have h2 := ih _ _ _ h
      conv_lhs => unfold weekendLoop
      simp_all

theorem weekendLoop_mono {fuel fuel2 : Nat} (hle : fuel ≤ fuel2) {d : ℚ} {s : Nat → Bool}
    {d2 : ℚ} (h : weekendLoop fuel d s = some d2) : weekendLoop fuel2 d s = some d2 := by
  induction fuel2 with
  | zero =>
    have : fuel = 0 := Nat.le_zero.mp hle
    subst this; exact h
  | succ fuel2 ih =>
    rcases Nat.lt_or_ge fuel (fuel2 + 1) with hlt | hge
    · exact weekendLoop_succ fuel2 _ _ _ (ih (Nat.lt_succ_iff.mp hlt))
    · have : fuel = fuel2 + 1 := le_antisymm hle hge
      subst this; exact h

theorem weekendLoop_exit_now (fuel : Nat) (d : ℚ) (s : Nat → Bool) (h : pyWeekday d ≤ 4) :
    weekendLoop fuel d s = some d := by
  cases fuel <;> unfold weekendLoop <;> simp [h]

/-- A weekend day pushed forward by two days lands on Monday or Tuesday. -/
theorem pyWeekday_add_two_days (d : ℚ) (h : ¬ pyWeekday d ≤ 4) : pyWeekday (d + 48) ≤ 4 := by
  unfold pyWeekday at *
  have hrw : (d + 48) / 24 = d / 24 + ((2 : ℤ) : ℚ) := by push_cast; ring
  rw [hrw, Int.floor_add_int]
  have h0 : 0 ≤ ⌊d / 24⌋ % 7 := Int.emod_nonneg _ (by norm_num)
  have h1 : ⌊d / 24⌋ % 7 < 7 := Int.emod_lt_of_pos _ (by norm_num)
  omega

theorem weekendLoop_term (i : Nat) :
    ∀ (d : ℚ) (s : Nat → Bool), s i = true → ∃ d2, weekendLoop (i + 1) d s = some d2 := by
  induction i with
  | zero =>
    intro d s hs
    by_cases hw : pyWeekday d ≤ 4
    · exact ⟨d, weekendLoop_exit_now _ _ _ hw⟩
    · refine ⟨d + 48, ?_⟩
      unfold weekendLoop
      simp only [hw, if_false, hs]
      exact weekendLoop_exit_now _ _ _ (pyWeekday_add_two_days d hw)
  | succ i ih =>
    intro d s hs
    by_cases hw : pyWeekday d ≤ 4
    · exact ⟨d, weekendLoop_exit_now _ _ _ hw⟩
    · have hs2 : (fun j => s (j + 1)) i = true := hs
      rcases ih (if s 0 then d + 48 else d) (fun j => s (j + 1)) hs2 with ⟨d2, h2⟩
      refine ⟨d2, ?_⟩
      unfold weekendLoop
      simp only [hw, if_false]
      exact h2

/-! ### Monotonicity and termination of whole runs -/

theorem makeTicket_mono {fuel fuel2 : Nat} (hle : fuel ≤ fuel2) {ticketId : Nat}
    {dr : TicketDraws} {t : Ticket} (h : makeTicket fuel ticketId dr = some t) :
    makeTicket fuel2 ticketId dr = some t := by
  unfold makeTicket at *
  rcases hwl : weekendLoop fuel (dateClosedRaw dr) dr.weekendDraws with _ | dc
  · rw [hwl] at h; cases h
  · rw [hwl] at h
    rw [weekendLoop_mono hle hwl]
    exact h

theorem generateAux_zero (fuel : Nat) (o : Nat → TicketDraws) (i : Nat) :
    generateAux fuel o i 0 = some [] := rfl

theorem generateAux_succ (fuel : Nat) (o : Nat → TicketDraws) (i n : Nat) :
    generateAux fuel o i (n + 1) =
      match makeTicket fuel (1001 + i) (o i) with
      | none => none
      | some t => (generateAux fuel o (i + 1) n).map (fun ts => t :: ts) := rfl

theorem generateAux_mono {fuel fuel2 : Nat} (hle : fuel ≤ fuel2) (o : Nat → TicketDraws) :
    ∀ (n i : Nat) (ts : List Ticket), generateAux fuel o i n = some ts →
      generateAux fuel2 o i n = some ts := by
  intro n
  induction n with
  | zero => intro i ts h; exact h
  | succ n ih =>
    intro i ts h
    rw [generateAux_succ] at h ⊢
    rcases hmk : makeTicket fuel (1001 + i) (o i) with _ | t
    · rw [hmk] at h; cases h
    · rw [hmk] at h
      rw [makeTicket_mono hle hmk]
      rcases hrest : generateAux fuel o (i + 1) n with _ | ts2
      · rw [hrest] at h; cases h
      · rw [hrest] at h
        rw [ih _ _ hrest]
        exact h

theorem generateAux_mem (fuel : Nat) (o : Nat → TicketDraws) :
    ∀ (n i : Nat) (ts : List Ticket) (t : Ticket), generateAux fuel o i n = some ts →
      t ∈ ts → ∃ k, makeTicket fuel (1001 + k) (o k) = some t := by
  intro n
  induction n with
  | zero =>
    intro i ts t h hm
    cases h
    cases hm
  | succ n ih =>
    intro i ts t h hm
    rw [generateAux_succ] at h
    rcases hmk : makeTicket fuel (1001 + i) (o i) with _ | t0
    · rw [hmk] at h; cases h
    · rw [hmk] at h
      rcases hrest : generateAux fuel o (i + 1) n with _ | ts2
      · rw [hrest] at h; cases h
      · rw [hrest] at h
        cases h
        rcases List.mem_cons.mp hm with heq | hmem
        · exact ⟨i, heq ▸ hmk⟩
        · exact ih _ _ _ hrest hmem

theorem generateAux_length (fuel : Nat) (o : Nat → TicketDraws) :
    ∀ (n i : Nat) (ts : List Ticket), generateAux fuel o i n = some ts → ts.length = n := by
  intro n
  induction n with
  | zero => intro i ts h; cases h; rfl
  | succ n ih =>
    intro i ts h
    rw [generateAux_succ] at h
    rcases hmk : makeTicket fuel (1001 + i) (o i) with _ | t0
    · rw [hmk] at h; cases h
    · rw [hmk] at h
      rcases hrest : generateAux fuel o (i + 1) n with _ | ts2
      · rw [hrest] at h; cases h
      · rw [hrest] at h
        cases h
        simp [ih _ _ hrest]

/-! ### Relating minute-level and hour-level timestamps -/

theorem floor_div_nat_eq (a : ℚ) (n : ℕ) (hn : 0 < n) :
    ⌊a / (n : ℚ)⌋ = ⌊a⌋ / (n : ℤ) := by
  have hq : (0 : ℚ) < (n : ℚ) := by exact_mod_cast hn
  have hz : (0 : ℤ) < (n : ℤ) := by exact_mod_cast hn
  rw [Int.floor_eq_iff]
  constructor
  · rw [le_div_iff₀ hq]
    have h1 : ⌊a⌋ / (n : ℤ) * (n : ℤ) ≤ ⌊a⌋ := Int.ediv_mul_le ⌊a⌋ (ne_of_gt hz)
    calc ((⌊a⌋ / (n : ℤ) : ℤ) : ℚ) * (n : ℚ)
        = ((⌊a⌋ / (n : ℤ) * (n : ℤ) : ℤ) : ℚ) := by push_cast; ring
      _ ≤ ((⌊a⌋ : ℤ) : ℚ) := by exact_mod_cast h1
      _ ≤ a := Int.floor_le a
  · rw [div_lt_iff₀ hq]
    have h2 : ⌊a⌋ + 1 ≤ (⌊a⌋ / (n : ℤ) + 1) * (n : ℤ) :=
      Int.lt_ediv_add_one_mul_self ⌊a⌋ hz
    calc a < (⌊a⌋ : ℚ) + 1 := Int.lt_floor_add_one a
      _ = (((⌊a⌋ + 1 : ℤ) : ℤ) : ℚ) := by push_cast; ring
      _ ≤ (((⌊a⌋ / (n : ℤ) + 1) * (n : ℤ) : ℤ) : ℚ) := by exact_mod_cast h2
      _ = ((⌊a⌋ / (n : ℤ) : ℤ) : ℚ) * (n : ℚ) + (n : ℚ) := by push_cast; ring
      _ = (↑(⌊a⌋ / (n : ℤ)) + 1) * (n : ℚ) := by ring

/-- Day-of-week of a minute-precision timestamp, Monday = 0. -/
def minuteWeekday (m : ℤ) : ℤ := m / 1440 % 7

/-- Truncating a timestamp to its calendar minute does not change its weekday. -/
theorem minuteWeekday_toMin (t : ℚ) : minuteWeekday (toMin t) = pyWeekday t := by
  unfold minuteWeekday toMin pyWeekday
  have h : t / 24 = t * 60 / ((1440 : ℕ) : ℚ) := by push_cast; ring
  rw [h, floor_div_nat_eq (t * 60) 1440 (by norm_num)]
  norm_num

/-! ### Concrete draw bundles used by witnesses and counterexamples -/

/-- A draw bundle within all the source's sampling ranges: the ticket opens
2024-01-01 00:00, is not reopen-eligible, not an outlier, and its Gamma draw 0
is floored to the minimal 0.1-hour resolution time. -/
def sampleDraws : TicketDraws :=
  { daysOffset := 0, hourOff := 0, minOff := 0, productChoice := 0, issueChoice := 0,
    priorityChoice := 0, agentChoice := 0, reopenDraw := 1, gamma1 := 0, outlierDraw := 1,
    outlierFactor := 3, weekendDraws := fun _ => true, reopenOffsetH := 1,
    resolveAgainDraw := 1, gamma2 := 0, resChoice := 0 }

theorem sampleDraws_valid : sampleDraws.Valid := by
  unfold TicketDraws.Valid sampleDraws
  norm_num

/-- A family of reopen-eligible draw bundles: like `sampleDraws` but the
reopen draw 0 marks the ticket for reopening, the resolved-again draw 0
resolves it again, and the second Gamma draw is the parameter `g2`. -/
def reopenDraws (g2 : ℚ) : TicketDraws :=
  { sampleDraws with reopenDraw := 0, resolveAgainDraw := 0, gamma2 := g2 }

theorem reopenDraws_valid (g2 : ℚ) (h : 0 ≤ g2) : (reopenDraws g2).Valid := by
  unfold TicketDraws.Valid reopenDraws sampleDraws
  refine ⟨?_, ?_, ?_, ?_, ?_, ?_, ?_, ?_, ?_, ?_, ?_, ?_⟩ <;> norm_num [h]

/-! ### Evaluating the pipeline on the concrete bundles -/

/-- When the raw close date is already a weekday the adjustment loop is a
no-op and the ticket is fully determined by the outcome tree. -/
theorem makeTicket_no_weekend (fuel ticketId : Nat) (dr : TicketDraws)
    (h : pyWeekday (dateClosedRaw dr) ≤ 4) :
    makeTicket fuel ticketId dr = some
      { ticketID := ticketId
        dateOpened := toMin (dateOpenedQ dr)
        dateClosed := (outcome dr (dateClosedRaw dr) (issueOf dr)).2.1
        product := productOf dr
        issue := issueOf dr
        priority := priorityOf dr
        status := (outcome dr (dateClosedRaw dr) (issueOf dr)).1
        assignedTo := agentOf dr
        resolution := (outcome dr (dateClosedRaw dr) (issueOf dr)).2.2 } := by
  unfold makeTicket
  rw [weekendLoop_exit_now fuel _ _ h]
  rfl

/-- Characterization of a successful loop-body run. -/
theorem makeTicket_some_iff (fuel ticketId : Nat) (dr : TicketDraws) (t : Ticket) :
    makeTicket fuel ticketId dr = some t ↔
      ∃ dc, weekendLoop fuel (dateClosedRaw dr) dr.weekendDraws = some dc ∧
        ticketFor ticketId dr dc = t := by
  unfold makeTicket
  exact Option.map_eq_some'

theorem sample_dateClosedRaw : dateClosedRaw sampleDraws = 1 / 10 := by
  norm_num [dateClosedRaw, dateOpenedQ, resolutionHours, resolutionHoursPre, baseHours,
    sampleDraws]

theorem reopenDraws_dateClosedRaw (g2 : ℚ) : dateClosedRaw (reopenDraws g2) = 1 / 10 := by
  norm_num [dateClosedRaw, dateOpenedQ, resolutionHours, resolutionHoursPre, baseHours,
    reopenDraws, sampleDraws]

theorem floor_tenth_day : ⌊(1 / 10 : ℚ) / 24⌋ = 0 := by
  rw [Int.floor_eq_iff]
  norm_num

theorem sample_weekday : pyWeekday (dateClosedRaw sampleDraws) ≤ 4 := by
  rw [sample_dateClosedRaw]
  unfold pyWeekday
  rw [floor_tenth_day]
  norm_num

theorem reopenDraws_weekday (g2 : ℚ) : pyWeekday (dateClosedRaw (reopenDraws g2)) ≤ 4 := by
  rw [reopenDraws_dateClosedRaw]
  unfold pyWeekday
  rw [floor_tenth_day]
  norm_num

theorem toMin_tenth : toMin (1 / 10) = 6 := by
  unfold toMin
  rw [show (1 / 10 : ℚ) * 60 = ((6 : ℤ) : ℚ) by norm_num, Int.floor_intCast]

theorem sample_outcome :
    outcome sampleDraws (1 / 10) (issueOf sampleDraws) =
      ("Closed", some 6, "Reset User Password") := by
  unfold outcome
  rw [if_neg (by norm_num [sampleDraws, targetReopenRate]),
    if_pos (by norm_num [currentTime])]
  rw [toMin_tenth]
  rfl

/-- The ticket `sampleDraws` generates. -/
def sampleTicket : Ticket :=
  { ticketID := 1001, dateOpened := 0, dateClosed := some 6, product := "Aether",
    issue := "Login Issue", priority := "Low", status := "Closed", assignedTo := "Alice",
    resolution := "Reset User Password" }

theorem toMin_sample_open : toMin (dateOpenedQ sampleDraws) = 0 := by
  unfold toMin
  rw [show dateOpenedQ sampleDraws * 60 = ((0 : ℤ) : ℚ) by
    norm_num [dateOpenedQ, sampleDraws], Int.floor_intCast]

theorem makeTicket_sample (fuel : Nat) :
    makeTicket fuel 1001 sampleDraws = some sampleTicket := by
  rw [makeTicket_no_weekend fuel 1001 sampleDraws sample_weekday]
  rw [sample_dateClosedRaw, sample_outcome, toMin_sample_open]
  rfl

theorem reopenDraws_outcome (g2 : ℚ) :
    outcome (reopenDraws g2) (1 / 10) (issueOf (reopenDraws g2)) =
      ("Reopened Closed", some (toMin (11 / 10 + g2)),
        "Reset User Password - Reopened Issue Addressed") := by
  unfold outcome
  rw [if_pos (by norm_num [reopenDraws, sampleDraws, targetReopenRate]),
    if_pos (by norm_num [currentTime]),
    if_pos (by norm_num [reopenDate, reopenDraws, sampleDraws, currentTime]),
    if_pos (by norm_num [reopenDraws, sampleDraws])]
  have harg : finalCloseDate (reopenDraws g2) (1 / 10) = 11 / 10 + g2 := by
    unfold finalCloseDate reopenDate
    norm_num [reopenDraws, sampleDraws]
  rw [harg]
  rfl

/-- The ticket `reopenDraws g2` generates: reopened at 1.1 hours after opening
and resolved again `g2` hours later. -/
def reopenTicket (ticketId : Nat) (g2 : ℚ) : Ticket :=
  { ticketID := ticketId, dateOpened := 0, dateClosed := some (toMin (11 / 10 + g2)),
    product := "Aether", issue := "Login Issue", priority := "Low",
    status := "Reopened Closed", assignedTo := "Alice",
    resolution := "Reset User Password - Reopened Issue Addressed" }

theorem makeTicket_reopenDraws (fuel ticketId : Nat) (g2 : ℚ) :
    makeTicket fuel ticketId (reopenDraws g2) = some (reopenTicket ticketId g2) := by
  rw [makeTicket_no_weekend fuel ticketId (reopenDraws g2) (reopenDraws_weekday g2)]
  rw [reopenDraws_dateClosedRaw, reopenDraws_outcome]
  have hop : toMin (dateOpenedQ (reopenDraws g2)) = 0 := by
    unfold toMin
    rw [show dateOpenedQ (reopenDraws g2) * 60 = ((0 : ℤ) : ℚ) by
      norm_num [dateOpenedQ, reopenDraws, sampleDraws], Int.floor_intCast]
  rw [hop]
  rfl

/-! ### C10 / C1: behaviour on non-positive record counts -/

/-- C10: for every record count at most zero, `generate_support_tickets`
raises no error and returns the empty ticket list: the `range(1001, 1001 +
num_tickets)` loop body is never entered. -/
theorem c10_nonpositive_count_yields_empty (fuel : Nat) (o : Nat → TicketDraws) (n : ℤ)
    (h : n ≤ 0) : generate fuel o n = some [] := by
  unfold generate
  rw [Int.toNat_of_nonpos h]
  rfl

/-- Witness for C10 at the concrete count -3. -/
theorem c10_nonpositive_count_yields_empty_witness :
    generate 0 (fun _ => sampleDraws) (-3) = some [] :=
  c10_nonpositive_count_yields_empty 0 (fun _ => sampleDraws) (-3) (by norm_num)

/-- C1 counterexample: at the concrete counts 0 and -5 the generator call does
not fail with an InvalidArgument-kind error (nor any error): it returns
successfully, with the empty list of tickets. -/
theorem c1_nonpositive_count_no_failure_cex :
    generate 0 (fun _ => sampleDraws) 0 = some [] ∧
      generate 0 (fun _ => sampleDraws) (-5) = some [] :=
  ⟨rfl, rfl⟩

/-- C1 (amended): a call of the ticket generator with a record count at most
zero does not fail: it succeeds immediately, producing no tickets. -/
theorem c1_nonpositive_count_succeeds (fuel : Nat) (o : Nat → TicketDraws) (n : ℤ)
    (h : n ≤ 0) : generate fuel o n ≠ none ∧ generate fuel o n = some [] := by
  unfold generate
  rw [Int.toNat_of_nonpos h]
  exact ⟨by simp [generateAux_zero], rfl⟩

/-- Witness for the amended C1 at the concrete count -1. -/
theorem c1_nonpositive_count_succeeds_witness :
    generate 0 (fun _ => sampleDraws) (-1) ≠ none ∧
      generate 0 (fun _ => sampleDraws) (-1) = some [] :=
  c1_nonpositive_count_succeeds 0 (fun _ => sampleDraws) (-1) (by norm_num)

/-! ### C5: flooring of sampled resolution durations -/

theorem resolutionHours_min (dr : TicketDraws) (h : dr.Valid) :
    1 / 10 ≤ resolutionHours dr := by
  have h1 : 1 / 10 ≤ resolutionHoursPre dr := le_max_left _ _
  have h0 : (0 : ℚ) ≤ resolutionHoursPre dr := le_trans (by norm_num) h1
  have h3 : (3 : ℚ) ≤ dr.outlierFactor := h.2.2.2.2.2.2.1
  unfold resolutionHours
  split
  · calc (1 / 10 : ℚ) ≤ resolutionHoursPre dr := h1
      _ = resolutionHoursPre dr * 1 := (mul_one _).symm
      _ ≤ resolutionHoursPre dr * dr.outlierFactor := by
          exact mul_le_mul_of_nonneg_left (by linarith) h0
  · exact h1

/-- C5 (amended): the first resolution duration is floored to at least 0.1
hours, `max(0.1, base_hours * (4.2 / 4.0))`, and the outlier factor in [3, 8]
keeps it at or above that floor. -/
theorem c5_first_resolution_floored (dr : TicketDraws) (h : dr.Valid) :
    1 / 10 ≤ resolutionHours dr :=
  resolutionHours_min dr h

/-- Witness for the amended C5 at the concrete bundle `sampleDraws`. -/
theorem c5_first_resolution_floored_witness : 1 / 10 ≤ resolutionHours sampleDraws :=
  c5_first_resolution_floored sampleDraws sampleDraws_valid

/-- C5 counterexample: with a second Gamma draw of 0.05 hours (a valid Gamma
sample) the generated ticket is Reopened Closed and the second resolution
duration used between reopen and final close is 0.05 < 0.1: the source floors
only the first sampled duration, not the second. -/
theorem c5_second_resolution_unfloored_cex :
    (reopenDraws (1 / 20)).Valid ∧
      makeTicket 0 1001 (reopenDraws (1 / 20)) = some (reopenTicket 1001 (1 / 20)) ∧
      (reopenTicket 1001 (1 / 20)).status = "Reopened Closed" ∧
      finalCloseDate (reopenDraws (1 / 20)) (dateClosedRaw (reopenDraws (1 / 20))) -
          reopenDate (reopenDraws (1 / 20)) (dateClosedRaw (reopenDraws (1 / 20))) = 1 / 20 ∧
      ¬ (1 / 10 ≤ (1 / 20 : ℚ)) := by
  refine ⟨reopenDraws_valid (1 / 20) (by norm_num), makeTicket_reopenDraws 0 1001 (1 / 20),
    rfl, ?_, by norm_num⟩
  unfold finalCloseDate reopenDate
  norm_num [reopenDraws, sampleDraws]

/-! ### The outcome tree, case by case -/

theorem outcome_spec (dr : TicketDraws) (dc : ℚ) (issue : String) :
    (outcome dr dc issue = ("Reopened Closed", some (toMin (finalCloseDate dr dc)),
        getResolution issue dr.resChoice true) ∧
      dr.reopenDraw < targetReopenRate ∧ dc < currentTime ∧
      reopenDate dr dc < currentTime ∧ dr.resolveAgainDraw < 7 / 10) ∨
    (outcome dr dc issue = ("Reopened Open", none, "") ∧
      dr.reopenDraw < targetReopenRate ∧ dc < currentTime) ∨
    outcome dr dc issue = ("Open", none, "") ∨
    (outcome dr dc issue = ("Closed", some (toMin dc),
        getResolution issue dr.resChoice false) ∧
      ¬ dr.reopenDraw < targetReopenRate ∧ dc < currentTime) := by
  unfold outcome
  by_cases h1 : dr.reopenDraw < targetReopenRate
  · by_cases h2 : dc < currentTime
    · by_cases h3 : reopenDate dr dc < currentTime
      · by_cases h4 : dr.resolveAgainDraw < 7 / 10
        · exact Or.inl ⟨by simp [h1, h2, h3, h4], h1, h2, h3, h4⟩
        · exact Or.inr (Or.inl ⟨by simp [h1, h2, h3, h4], h1, h2⟩)
      · exact Or.inr (Or.inl ⟨by simp [h1, h2, h3], h1, h2⟩)
    · exact Or.inr (Or.inr (Or.inl (by simp [h1, h2])))
  · by_cases h2 : dc < currentTime
    · exact Or.inr (Or.inr (Or.inr ⟨by simp [h1, h2], h1, h2⟩))
    · exact Or.inr (Or.inr (Or.inl (by simp [h1, h2])))

/-! ### C4: DateClosed presence versus the horizon cutoff -/

theorem toMin_late : toMin (11 / 10 + 100000) = 6000066 := by
  unfold toMin
  rw [show ((11 / 10 : ℚ) + 100000) * 60 = ((6000066 : ℤ) : ℚ) by norm_num,
    Int.floor_intCast]

/-- C4 counterexample: with a valid draw bundle whose second Gamma draw is
100000 hours, the generated ticket has status Reopened Closed and a non-empty
DateClosed of 6000066 minutes (year 2035), although that second resolution
time does not precede the horizon cutoff `current_time = 2024-12-31`: the
source never compares `final_close_date` against `current_time`. -/
theorem c4_reopened_closed_after_cutoff_cex :
    (reopenDraws 100000).Valid ∧
      makeTicket 0 1001 (reopenDraws 100000) = some (reopenTicket 1001 100000) ∧
      (reopenTicket 1001 100000).status = "Reopened Closed" ∧
      (reopenTicket 1001 100000).dateClosed = some 6000066 ∧
      ¬ finalCloseDate (reopenDraws 100000) (dateClosedRaw (reopenDraws 100000)) <
          currentTime ∧
      ¬ ((6000066 : ℚ) / 60 < currentTime) := by
  refine ⟨reopenDraws_valid 100000 (by norm_num), makeTicket_reopenDraws 0 1001 100000, rfl,
    ?_, ?_, by norm_num [currentTime]⟩
  · show some (toMin (11 / 10 + 100000)) = some 6000066
    rw [toMin_late]
  · rw [reopenDraws_dateClosedRaw]
    unfold finalCloseDate reopenDate
    norm_num [reopenDraws, sampleDraws, currentTime]

/-- C4 (amended): DateClosed is non-empty exactly when the status is Closed or
Reopened Closed; a Closed ticket's (first-closure) close date precedes the
cutoff, and a Reopened Closed ticket's reopen time precedes the cutoff, but
its recorded second close date is not compared against the cutoff and may fall
beyond it. -/
theorem c4_dateClosed_iff_closed_status (fuel ticketId : Nat) (dr : TicketDraws) (t : Ticket)
    (h : makeTicket fuel ticketId dr = some t) :
    (t.dateClosed ≠ none ↔ (t.status = "Closed" ∨ t.status = "Reopened Closed")) ∧
      (∀ dc, weekendLoop fuel (dateClosedRaw dr) dr.weekendDraws = some dc →
        (t.status = "Closed" → dc < currentTime ∧ t.dateClosed = some (toMin dc)) ∧
        (t.status = "Reopened Closed" → reopenDate dr dc < currentTime ∧
          t.dateClosed = some (toMin (finalCloseDate dr dc)))) := by
  rcases (makeTicket_some_iff fuel ticketId dr t).mp h with ⟨dc, hwl, ht⟩
  subst ht
  have hstat : (ticketFor ticketId dr dc).status = (outcome dr dc (issueOf dr)).1 := rfl
  have hdcl : (ticketFor ticketId dr dc).dateClosed = (outcome dr dc (issueOf dr)).2.1 := rfl
  rcases outcome_spec dr dc (issueOf dr) with hsp | hsp | hsp | hsp
  · have hs1 : (ticketFor ticketId dr dc).status = "Reopened Closed" := by
      rw [hstat, hsp.1]
    have hd1 : (ticketFor ticketId dr dc).dateClosed = some (toMin (finalCloseDate dr dc)) := by
      rw [hdcl, hsp.1]
    refine ⟨by rw [hs1, hd1]; simp, fun dc2 hwl2 => ?_⟩
    rw [hwl] at hwl2
    cases hwl2
    rw [hs1, hd1]
    exact ⟨fun habs => absurd habs (by decide), fun _ => ⟨hsp.2.2.2.1, rfl⟩⟩
  · have hs1 : (ticketFor ticketId dr dc).status = "Reopened Open" := by
      rw [hstat, hsp.1]
    have hd1 : (ticketFor ticketId dr dc).dateClosed = none := by
      rw [hdcl, hsp.1]
    refine ⟨by rw [hs1, hd1]; simp, fun dc2 hwl2 => ?_⟩
    rw [hwl] at hwl2
    cases hwl2
    rw [hs1, hd1]
    exact ⟨fun habs => absurd habs (by decide), fun habs => absurd habs (by decide)⟩
  · have hs1 : (ticketFor ticketId dr dc).status = "Open" := by
      rw [hstat, hsp]
    have hd1 : (ticketFor ticketId dr dc).dateClosed = none := by
      rw [hdcl, hsp]
    refine ⟨by rw [hs1, hd1]; simp, fun dc2 hwl2 => ?_⟩
    rw [hwl] at hwl2
    cases hwl2
    rw [hs1, hd1]
    exact ⟨fun habs => absurd habs (by decide), fun habs => absurd habs (by decide)⟩
  · have hs1 : (ticketFor ticketId dr dc).status = "Closed" := by
      rw [hstat, hsp.1]
    have hd1 : (ticketFor ticketId dr dc).dateClosed = some (toMin dc) := by
      rw [hdcl, hsp.1]
    refine ⟨by rw [hs1, hd1]; simp, fun dc2 hwl2 => ?_⟩
    rw [hwl] at hwl2
    cases hwl2
    rw [hs1, hd1]
    exact ⟨fun _ => ⟨hsp.2.2, rfl⟩, fun habs => absurd habs (by decide)⟩

/-- Witness for the amended C4 at the concrete bundle `sampleDraws`. -/
theorem c4_dateClosed_iff_closed_status_witness :
    (sampleTicket.dateClosed ≠ none ↔
        (sampleTicket.status = "Closed" ∨ sampleTicket.status = "Reopened Closed")) ∧
      (∀ dc, weekendLoop 0 (dateClosedRaw sampleDraws) sampleDraws.weekendDraws = some dc →
        (sampleTicket.status = "Closed" →
          dc < currentTime ∧ sampleTicket.dateClosed = some (toMin dc)) ∧
        (sampleTicket.status = "Reopened Closed" →
          reopenDate sampleDraws dc < currentTime ∧
            sampleTicket.dateClosed = some (toMin (finalCloseDate sampleDraws dc)))) :=
  c4_dateClosed_iff_closed_status 0 1001 sampleDraws sampleTicket (makeTicket_sample 0)

/-! ### C7: resolution text versus status -/

/-- Every string of every per-issue vocabulary is non-empty and comma-free. -/
theorem resolutionsFor_strings (issue : String) (l : List String)
    (h : resolutionsFor issue = some l) :
    ∀ s ∈ l, s ≠ "" ∧ (',' : Char) ∉ s.data := by
  unfold resolutionsFor at h
  by_cases h1 : issue = "Login Issue"
  · rw [if_pos h1] at h
    cases h
    decide
  · rw [if_neg h1] at h
    by_cases h2 : issue = "Payment Failure"
    · rw [if_pos h2] at h
      cases h
      decide
    · rw [if_neg h2] at h
      by_cases h3 : issue = "Performance Issue"
      · rw [if_pos h3] at h
        cases h
        decide
      · rw [if_neg h3] at h
        by_cases h4 : issue = "Software Crash"
        · rw [if_pos h4] at h
          cases h
          decide
        · rw [if_neg h4] at h
          by_cases h5 : issue = "Network Failure"
          · rw [if_pos h5] at h
            cases h
            decide
          · rw [if_neg h5] at h
            by_cases h6 : issue = "Data Sync Error"
            · rw [if_pos h6] at h
              cases h
              decide
            · rw [if_neg h6] at h
              by_cases h7 : issue = "UI Bug"
              · rw [if_pos h7] at h
                cases h
                decide
              · rw [if_neg h7] at h
                by_cases h8 : issue = "Integration Error"
                · rw [if_pos h8] at h
                  cases h
                  decide
                · rw [if_neg h8] at h
                  by_cases h9 : issue = "Configuration Problem"
                  · rw [if_pos h9] at h
                    cases h
                    decide
                  · rw [if_neg h9] at h
                    by_cases h10 : issue = "Data Loss"
                    · rw [if_pos h10] at h
                      cases h
                      decide
                    · rw [if_neg h10] at h
                      by_cases h11 : issue = "Connection Timeout"
                      · rw [if_pos h11] at h
                        cases h
                        decide
                      · rw [if_neg h11] at h
                        by_cases h12 : issue = "Service Unavailable"
                        · rw [if_pos h12] at h
                          cases h
                          decide
                        · rw [if_neg h12] at h
                          by_cases h13 : issue = "Authentication Error"
                          · rw [if_pos h13] at h
                            cases h
                            decide
                          · rw [if_neg h13] at h
                            by_cases h14 : issue = "Sync Issue"
                            · rw [if_pos h14] at h
                              cases h
                              decide
                            · rw [if_neg h14] at h
                              cases h

theorem getD_resolution_ne_empty (l : List String) (c : Nat) (hs : ∀ s ∈ l, s ≠ "") :
    l.getD (c % l.length) "Issue Resolved" ≠ "" := by
  by_cases hl : c % l.length < l.length
  · rw [List.getD_eq_getElem?_getD, List.getElem?_eq_getElem hl]
    exact hs _ (List.getElem_mem hl)
  · have h0 : l.length = 0 := by
      rcases Nat.eq_zero_or_pos l.length with h0 | h0
      · exact h0
      · exact absurd (Nat.mod_lt c h0) hl
    rw [List.length_eq_zero] at h0
    subst h0
    rw [List.getD_nil]
    decide

theorem append_suffix_ne_empty (s : String) (hs : s ≠ "") (b : Bool) :
    s ++ (if b then reopenSuffix else "") ≠ "" := by
  cases b
  · simpa using hs
  · intro habs
    rw [String.ext_iff, String.data_append] at habs
    rcases List.append_eq_nil.mp habs with ⟨h1, h2⟩
    exact absurd h2 (by decide)

/-- `get_resolution` never returns the empty string. -/
theorem getResolution_ne_empty (issue : String) (choice : Nat) (isReopened : Bool) :
    getResolution issue choice isReopened ≠ "" := by
  unfold getResolution
  rcases hres : resolutionsFor issue with _ | l
  · exact append_suffix_ne_empty "Issue Resolved" (by decide) isReopened
  · exact append_suffix_ne_empty _
      (getD_resolution_ne_empty l choice
        (fun s hmem => (resolutionsFor_strings issue l hres s hmem).1)) isReopened

/-- C7: for every generated ticket, Resolution is non-empty exactly when the
ticket is in a closed state; DateClosed is empty exactly when the status is
Open or Reopened Open; and Resolution is empty exactly when DateClosed is. -/
theorem c7_resolution_iff_closed (fuel ticketId : Nat) (dr : TicketDraws) (t : Ticket)
    (h : makeTicket fuel ticketId dr = some t) :
    (t.dateClosed = none ↔ (t.status = "Open" ∨ t.status = "Reopened Open")) ∧
      (t.resolution = "" ↔ t.dateClosed = none) ∧
      (t.resolution ≠ "" ↔ (t.status = "Closed" ∨ t.status = "Reopened Closed")) := by
  rcases (makeTicket_some_iff fuel ticketId dr t).mp h with ⟨dc, hwl, ht⟩
  subst ht
  have hstat : (ticketFor ticketId dr dc).status = (outcome dr dc (issueOf dr)).1 := rfl
  have hdcl : (ticketFor ticketId dr dc).dateClosed = (outcome dr dc (issueOf dr)).2.1 := rfl
  have hres : (ticketFor ticketId dr dc).resolution = (outcome dr dc (issueOf dr)).2.2 := rfl
  rcases outcome_spec dr dc (issueOf dr) with hsp | hsp | hsp | hsp
  · have hs1 : (ticketFor ticketId dr dc).status = "Reopened Closed" := by rw [hstat, hsp.1]
    have hd1 : (ticketFor ticketId dr dc).dateClosed =
        some (toMin (finalCloseDate dr dc)) := by rw [hdcl, hsp.1]
    have hr1 : (ticketFor ticketId dr dc).resolution =
        getResolution (issueOf dr) dr.resChoice true := by rw [hres, hsp.1]
    rw [hs1, hd1, hr1]
    refine ⟨by simp, ?_, ?_⟩
    · constructor
      · intro habs; exact absurd habs (getResolution_ne_empty _ _ _)
      · intro habs; cases habs
    · simp [getResolution_ne_empty (issueOf dr) dr.resChoice true]
  · have hs1 : (ticketFor ticketId dr dc).status = "Reopened Open" := by rw [hstat, hsp.1]
    have hd1 : (ticketFor ticketId dr dc).dateClosed = none := by rw [hdcl, hsp.1]
    have hr1 : (ticketFor ticketId dr dc).resolution = "" := by rw [hres, hsp.1]
    rw [hs1, hd1, hr1]
    simp
  · have hs1 : (ticketFor ticketId dr dc).status = "Open" := by rw [hstat, hsp]
    have hd1 : (ticketFor ticketId dr dc).dateClosed = none := by rw [hdcl, hsp]
    have hr1 : (ticketFor ticketId dr dc).resolution = "" := by rw [hres, hsp]
    rw [hs1, hd1, hr1]
    simp
  · have hs1 : (ticketFor ticketId dr dc).status = "Closed" := by rw [hstat, hsp.1]
    have hd1 : (ticketFor ticketId dr dc).dateClosed = some (toMin dc) := by rw [hdcl, hsp.1]
    have hr1 : (ticketFor ticketId dr dc).resolution =
        getResolution (issueOf dr) dr.resChoice false := by rw [hres, hsp.1]
    rw [hs1, hd1, hr1]
    refine ⟨by simp, ?_, ?_⟩
    · constructor
      · intro habs; exact absurd habs (getResolution_ne_empty _ _ _)
      · intro habs; cases habs
    · simp [getResolution_ne_empty (issueOf dr) dr.resChoice false]

/-- Witness for C7 at the concrete bundle `sampleDraws`. -/
theorem c7_resolution_iff_closed_witness :
    (sampleTicket.dateClosed = none ↔
        (sampleTicket.status = "Open" ∨ sampleTicket.status = "Reopened Open")) ∧
      (sampleTicket.resolution = "" ↔ sampleTicket.dateClosed = none) ∧
      (sampleTicket.resolution ≠ "" ↔
        (sampleTicket.status = "Closed" ∨ sampleTicket.status = "Reopened Closed")) :=
  c7_resolution_iff_closed 0 1001 sampleDraws sampleTicket (makeTicket_sample 0)

/-! ### C6: DateClosed strictly after DateOpened -/

/-- The open timestamp is a whole number of minutes, and any timestamp at
least 0.1 hours after it truncates to a strictly later minute. -/
theorem toMin_gt_open (dr : TicketDraws) (hv : dr.Valid) (x : ℚ)
    (hx : dateClosedRaw dr ≤ x) : toMin (dateOpenedQ dr) < toMin x := by
  have hres : 1 / 10 ≤ resolutionHours dr := resolutionHours_min dr hv
  have hopen60 : dateOpenedQ dr * 60 =
      ((1440 * (dr.daysOffset : ℤ) + 60 * (dr.hourOff : ℤ) + (dr.minOff : ℤ) : ℤ) : ℚ) := by
    unfold dateOpenedQ
    push_cast
    ring
  have h1 : toMin (dateOpenedQ dr) =
      1440 * (dr.daysOffset : ℤ) + 60 * (dr.hourOff : ℤ) + (dr.minOff : ℤ) := by
    unfold toMin
    rw [hopen60, Int.floor_intCast]
  have h2 : dateOpenedQ dr + 1 / 10 ≤ x := by
    unfold dateClosedRaw at hx
    linarith
  have h3 : ((1440 * (dr.daysOffset : ℤ) + 60 * (dr.hourOff : ℤ) + (dr.minOff : ℤ) + 6 : ℤ) : ℚ)
      ≤ x * 60 := by
    have hcast : ((1440 * (dr.daysOffset : ℤ) + 60 * (dr.hourOff : ℤ) + (dr.minOff : ℤ) + 6 : ℤ)
        : ℚ) = dateOpenedQ dr * 60 + 6 := by
      rw [hopen60]
      push_cast
      ring
    rw [hcast]
    linarith
  have h4 : 1440 * (dr.daysOffset : ℤ) + 60 * (dr.hourOff : ℤ) + (dr.minOff : ℤ) + 6 ≤
      ⌊x * 60⌋ := Int.le_floor.mpr h3
  rw [h1]
  unfold toMin
  omega

/-- C6: for every generated ticket with a non-empty DateClosed, the recorded
close timestamp is strictly after the open timestamp, on the first-closure
path (weekend adjustment included) and on the reopened second-closure path. -/
theorem c6_dateClosed_after_dateOpened (fuel ticketId : Nat) (dr : TicketDraws) (t : Ticket)
    (m : ℤ) (hv : dr.Valid) (h : makeTicket fuel ticketId dr = some t)
    (hm : t.dateClosed = some m) : t.dateOpened < m := by
  rcases (makeTicket_some_iff fuel ticketId dr t).mp h with ⟨dc, hwl, ht⟩
  subst ht
  have hdcle : dateClosedRaw dr ≤ dc := weekendLoop_le fuel _ _ _ hwl
  have hopen : (ticketFor ticketId dr dc).dateOpened = toMin (dateOpenedQ dr) := rfl
  have hdcl : (ticketFor ticketId dr dc).dateClosed = (outcome dr dc (issueOf dr)).2.1 := rfl
  have hg2 : (0 : ℚ) ≤ dr.gamma2 := hv.2.2.2.2.2.2.2.2.2.2.2
  have hoff1 : (1 : ℚ) ≤ (dr.reopenOffsetH : ℚ) := by
    exact_mod_cast hv.2.2.2.2.2.2.2.2.1
  rcases outcome_spec dr dc (issueOf dr) with hsp | hsp | hsp | hsp
  · have hd1 : (ticketFor ticketId dr dc).dateClosed =
        some (toMin (finalCloseDate dr dc)) := by rw [hdcl, hsp.1]
    rw [hd1] at hm
    cases hm
    rw [hopen]
    refine toMin_gt_open dr hv _ ?_
    unfold finalCloseDate reopenDate
    linarith
  · have hd1 : (ticketFor ticketId dr dc).dateClosed = none := by rw [hdcl, hsp.1]
    rw [hd1] at hm
    cases hm
  · have hd1 : (ticketFor ticketId dr dc).dateClosed = none := by rw [hdcl, hsp]
    rw [hd1] at hm
    cases hm
  · have hd1 : (ticketFor ticketId dr dc).dateClosed = some (toMin dc) := by rw [hdcl, hsp.1]
    rw [hd1] at hm
    cases hm
    rw [hopen]
    exact toMin_gt_open dr hv dc hdcle

/-- Witness for C6 at the concrete bundle `sampleDraws`. -/
theorem c6_dateClosed_after_dateOpened_witness : sampleTicket.dateOpened < 6 :=
  c6_dateClosed_after_dateOpened 0 1001 sampleDraws sampleTicket 6 sampleDraws_valid
    (makeTicket_sample 0) rfl

/-! ### C2: weekend closures -/

/-- C2 as the spec states it: for some draw sequence, a generated non-reopened
ticket with status Closed has a first-closure DateClosed falling on a Saturday
or Sunday (minute weekday 5 or 6). -/
def WeekendClosureClaim : Prop :=
  ∃ (fuel : Nat) (o : Nat → TicketDraws) (n : ℤ) (ts : List Ticket) (t : Ticket) (m : ℤ),
    generate fuel o n = some ts ∧ t ∈ ts ∧ t.status = "Closed" ∧ t.dateClosed = some m ∧
      5 ≤ minuteWeekday m

/-- C2 counterexample (negation of the claim): no sequence of draws yields a
Closed ticket whose DateClosed falls on a weekend — the loop only exits once
the close date is a weekday, so the 30% residual branch merely retries and
never leaves a weekend closure behind. -/
theorem c2_no_weekend_closed_ticket_cex : ¬ WeekendClosureClaim := by
  rintro ⟨fuel, o, n, ts, t, m, hg, hmem, hst, hm, hwk⟩
  unfold generate at hg
  rcases generateAux_mem fuel o n.toNat 0 ts t hg hmem with ⟨k, hmk⟩
  rcases (makeTicket_some_iff fuel (1001 + k) (o k) t).mp hmk with ⟨dc, hwl, ht⟩
  subst ht
  have hwd : pyWeekday dc ≤ 4 := weekendLoop_weekday_le fuel _ _ _ hwl
  have hstat : (ticketFor (1001 + k) (o k) dc).status =
      (outcome (o k) dc (issueOf (o k))).1 := rfl
  have hdcl : (ticketFor (1001 + k) (o k) dc).dateClosed =
      (outcome (o k) dc (issueOf (o k))).2.1 := rfl
  rcases outcome_spec (o k) dc (issueOf (o k)) with hsp | hsp | hsp | hsp
  · have hs1 : (ticketFor (1001 + k) (o k) dc).status = "Reopened Closed" := by
      rw [hstat, hsp.1]
    rw [hs1] at hst
    exact absurd hst (by decide)
  · have hs1 : (ticketFor (1001 + k) (o k) dc).status = "Reopened Open" := by
      rw [hstat, hsp.1]
    rw [hs1] at hst
    exact absurd hst (by decide)
  · have hs1 : (ticketFor (1001 + k) (o k) dc).status = "Open" := by
      rw [hstat, hsp]
    rw [hs1] at hst
    exact absurd hst (by decide)
  · have hd1 : (ticketFor (1001 + k) (o k) dc).dateClosed = some (toMin dc) := by
      rw [hdcl, hsp.1]
    rw [hd1] at hm
    cases hm
    rw [minuteWeekday_toMin] at hwk
    omega

/-- C2 (amended): the weekend adjustment, whenever the generation loop
terminates, leaves no weekend closure at all: every generated ticket with
status Closed has a DateClosed on a weekday (Monday-Friday). -/
theorem c2_closed_ticket_weekday_le (fuel ticketId : Nat) (dr : TicketDraws) (t : Ticket)
    (m : ℤ) (h : makeTicket fuel ticketId dr = some t) (hst : t.status = "Closed")
    (hm : t.dateClosed = some m) : minuteWeekday m ≤ 4 := by
  rcases (makeTicket_some_iff fuel ticketId dr t).mp h with ⟨dc, hwl, ht⟩
  subst ht
  have hwd : pyWeekday dc ≤ 4 := weekendLoop_weekday_le fuel _ _ _ hwl
  have hstat : (ticketFor ticketId dr dc).status = (outcome dr dc (issueOf dr)).1 := rfl
  have hdcl : (ticketFor ticketId dr dc).dateClosed = (outcome dr dc (issueOf dr)).2.1 := rfl
  rcases outcome_spec dr dc (issueOf dr) with hsp | hsp | hsp | hsp
  · have hs1 : (ticketFor ticketId dr dc).status = "Reopened Closed" := by rw [hstat, hsp.1]
    rw [hs1] at hst
    exact absurd hst (by decide)
  · have hs1 : (ticketFor ticketId dr dc).status = "Reopened Open" := by rw [hstat, hsp.1]
    rw [hs1] at hst
    exact absurd hst (by decide)
  · have hs1 : (ticketFor ticketId dr dc).status = "Open" := by rw [hstat, hsp]
    rw [hs1] at hst
    exact absurd hst (by decide)
  · have hd1 : (ticketFor ticketId dr dc).dateClosed = some (toMin dc) := by
      rw [hdcl, hsp.1]
    rw [hd1] at hm
    cases hm
    rw [minuteWeekday_toMin]
    exact hwd

/-- Witness for the amended C2 at the concrete bundle `sampleDraws`. -/
theorem c2_closed_ticket_weekday_le_witness : minuteWeekday 6 ≤ 4 :=
  c2_closed_ticket_weekday_le 0 1001 sampleDraws sampleTicket 6 (makeTicket_sample 0) rfl rfl

/-! ### C3: termination of generation -/

/-- A draw bundle whose raw close date lands on Saturday 2024-01-06 and whose
weekend-adjustment draws all fail (each `random.random() < 0.7` draw false, a
possible outcome sequence): the adjustment loop never exits. -/
def stuckDraws : TicketDraws :=
  { sampleDraws with daysOffset := 5, weekendDraws := fun _ => false }

theorem stuckDraws_valid : stuckDraws.Valid := by
  unfold TicketDraws.Valid stuckDraws sampleDraws
  norm_num

theorem stuckDraws_weekday : ¬ pyWeekday (dateClosedRaw stuckDraws) ≤ 4 := by
  have hdc : dateClosedRaw stuckDraws = 120 + 1 / 10 := by
    norm_num [dateClosedRaw, dateOpenedQ, resolutionHours, resolutionHoursPre, baseHours,
      stuckDraws, sampleDraws]
  rw [hdc]
  unfold pyWeekday
  have h5 : ⌊(120 + 1 / 10 : ℚ) / 24⌋ = 5 := by
    rw [Int.floor_eq_iff]
    norm_num
  rw [h5]
  decide

/-- C3 as stated: every valid draw sequence admits a fuel bound within which
the whole generation run terminates. -/
def GenerationTerminatesClaim : Prop :=
  ∀ (o : Nat → TicketDraws) (n : ℤ), (∀ i, (o i).Valid) →
    ∃ fuel, (generate fuel o n).isSome

/-- C3 counterexample: with the valid draw sequence `stuckDraws` (close date
on a Saturday, every weekend-adjustment draw failing) a run of one ticket
exits for no fuel bound: the weekend-adjustment `while` loop spins forever. -/
theorem c3_generation_may_not_terminate_cex : ¬ GenerationTerminatesClaim := by
  intro hcl
  rcases hcl (fun _ => stuckDraws) 1 (fun _ => stuckDraws_valid) with ⟨fuel, hsome⟩
  unfold generate at hsome
  rw [show (1 : ℤ).toNat = 1 from rfl, generateAux_succ] at hsome
  have hmk : makeTicket fuel (1001 + 0) stuckDraws = none := by
    unfold makeTicket
    rw [weekendLoop_stuck fuel (dateClosedRaw stuckDraws) stuckDraws.weekendDraws
      stuckDraws_weekday (fun i => rfl)]
    rfl
  rw [hmk] at hsome
  simp at hsome

theorem makeTicket_term (ticketId : Nat) (dr : TicketDraws)
    (h : ∃ j, dr.weekendDraws j = true) : ∃ fuel t, makeTicket fuel ticketId dr = some t := by
  rcases h with ⟨j, hj⟩
  rcases weekendLoop_term j (dateClosedRaw dr) dr.weekendDraws hj with ⟨dc, hdc⟩
  refine ⟨j + 1, ticketFor ticketId dr dc, ?_⟩
  unfold makeTicket
  rw [hdc]
  rfl

theorem generateAux_term (o : Nat → TicketDraws)
    (h : ∀ i, ∃ j, (o i).weekendDraws j = true) :
    ∀ n i, ∃ fuel ts, generateAux fuel o i n = some ts := by
  intro n
  induction n with
  | zero => exact fun i => ⟨0, [], rfl⟩
  | succ n ih =>
    intro i
    rcases makeTicket_term (1001 + i) (o i) (h i) with ⟨f1, t, ht⟩
    rcases ih (i + 1) with ⟨f2, ts, hts⟩
    refine ⟨max f1 f2, t :: ts, ?_⟩
    rw [generateAux_succ, makeTicket_mono (le_max_left f1 f2) ht,
      generateAux_mono (le_max_right f1 f2) o n (i + 1) ts hts]
    rfl

/-- C3 (amended): generation terminates for every draw sequence in which each
ticket's weekend-adjustment stream contains at least one successful
(below-0.7) draw — a single success exits the loop; only the
probability-zero all-failure stream makes a run spin forever. -/
theorem c3_generate_terminates_of_success_draw (o : Nat → TicketDraws) (n : ℤ)
    (h : ∀ i, ∃ j, (o i).weekendDraws j = true) :
    ∃ fuel ts, generate fuel o n = some ts := by
  rcases generateAux_term o h n.toNat 0 with ⟨fuel, ts, hts⟩
  exact ⟨fuel, ts, hts⟩

/-- Witness for the amended C3 at a concrete two-ticket run. -/
theorem c3_generate_terminates_of_success_draw_witness :
    ∃ fuel ts, generate fuel (fun _ => sampleDraws) 2 = some ts :=
  c3_generate_terminates_of_success_draw (fun _ => sampleDraws) 2 (fun _ => ⟨0, rfl⟩)

/-! ### C8: the reopen rate over a population -/

theorem generateAux_reopen (n : Nat) :
    ∀ i : Nat, ∃ ts, generateAux 0 (fun _ => reopenDraws 0) i n = some ts ∧
      ts.length = n ∧ ∀ t ∈ ts, t.status = "Reopened Closed" := by
  induction n with
  | zero => exact fun i => ⟨[], rfl, rfl, by simp⟩
  | succ n ih =>
    intro i
    rcases ih (i + 1) with ⟨ts, hts, hlen, hall⟩
    refine ⟨reopenTicket (1001 + i) 0 :: ts, ?_, by simp [hlen], ?_⟩
    · rw [generateAux_succ, makeTicket_reopenDraws 0 (1001 + i) 0, hts]
      rfl
    · intro t hmem
      rcases List.mem_cons.mp hmem with heq | hmem2
      · rw [heq]; rfl
      · exact hall t hmem2

/-- C8 counterexample: for the valid draw sequence in which every ticket's
reopen draw is 0 (each below the 13.2% threshold, a possible sequence of
`random.random()` outcomes), a 500-ticket population has reopen rate 1, and
`|1 - 0.132| = 0.868` is not below the claimed 0.03 tolerance. -/
theorem c8_reopen_rate_unbounded_cex :
    (reopenDraws 0).Valid ∧
      ∃ ts, generate 0 (fun _ => reopenDraws 0) 500 = some ts ∧ ts.length = 500 ∧
        reopenRate ts = 1 ∧ ¬ |reopenRate ts - targetReopenRate| < 3 / 100 := by
  obtain ⟨ts, hts, hlen, hall⟩ := generateAux_reopen 500 0
  have hfilter : ts.filter (fun t => isReopenedStatus t.status) = ts :=
    List.filter_eq_self.mpr (fun t hmem => by rw [hall t hmem]; decide)
  have hcount : reopenedTicketCount ts = 500 := by
    unfold reopenedTicketCount
    rw [hfilter, hlen]
  have hrate : reopenRate ts = 1 := by
    unfold reopenRate
    rw [hcount, hlen]
    norm_num
  refine ⟨reopenDraws_valid 0 (le_refl 0), ts, hts, hlen, hrate, ?_⟩
  rw [hrate]
  unfold targetReopenRate
  rw [abs_sub_lt_iff]
  norm_num

/-- C8 (amended): the reopen rate is not within 0.03 of the target for every
draw sequence; what holds for every population is the mechanism the rate is
sampled from: a ticket carries a Reopened status only when its per-ticket
reopen-eligibility draw fell strictly below the 13.2% target rate. -/
theorem c8_reopened_status_requires_draw (fuel : Nat) (o : Nat → TicketDraws) (n : ℤ)
    (ts : List Ticket) (t : Ticket) (hg : generate fuel o n = some ts) (ht : t ∈ ts)
    (hr : isReopenedStatus t.status = true) :
    ∃ k, makeTicket fuel (1001 + k) (o k) = some t ∧
      (o k).reopenDraw < targetReopenRate := by
  unfold generate at hg
  rcases generateAux_mem fuel o n.toNat 0 ts t hg ht with ⟨k, hmk⟩
  refine ⟨k, hmk, ?_⟩
  rcases (makeTicket_some_iff fuel (1001 + k) (o k) t).mp hmk with ⟨dc, hwl, hteq⟩
  subst hteq
  have hstat : (ticketFor (1001 + k) (o k) dc).status =
      (outcome (o k) dc (issueOf (o k))).1 := rfl
  rcases outcome_spec (o k) dc (issueOf (o k)) with hsp | hsp | hsp | hsp
  · exact hsp.2.1
  · exact hsp.2.1
  · have hs1 : (ticketFor (1001 + k) (o k) dc).status = "Open" := by rw [hstat, hsp]
    rw [hs1] at hr
    exact absurd hr (by decide)
  · have hs1 : (ticketFor (1001 + k) (o k) dc).status = "Closed" := by rw [hstat, hsp.1]
    rw [hs1] at hr
    exact absurd hr (by decide)

theorem generate_reopen_one :
    generate 0 (fun _ => reopenDraws 0) 1 = some [reopenTicket 1001 0] := by
  unfold generate
  rw [show (1 : ℤ).toNat = 1 from rfl, generateAux_succ,
    makeTicket_reopenDraws 0 (1001 + 0) 0]
  rfl

/-- Witness for the amended C8 at a concrete one-ticket reopened run. -/
theorem c8_reopened_status_requires_draw_witness :
    ∃ k, makeTicket 0 (1001 + k) ((fun _ => reopenDraws 0) k) = some (reopenTicket 1001 0) ∧
      ((fun _ => reopenDraws 0) k).reopenDraw < targetReopenRate :=
  c8_reopened_status_requires_draw 0 (fun _ => reopenDraws 0) 1 [reopenTicket 1001 0]
    (reopenTicket 1001 0) generate_reopen_one (List.mem_singleton.mpr rfl) rfl

/-! ### C9: serialization round trip.

`save_to_csv` writes a header row and one comma-joined row per ticket with the
fixed nine columns; dates appear as `strftime('%m/%d/%Y %H:%M')` strings.  We
model the file as a list of character rows, the date strings through their
calendar fields (month/day/year hour:minute rendered from the minute
timestamp by Gregorian calendar conversion), and re-parsing as splitting each
row at commas and interpreting date fields back to a minute timestamp. -/

/-- Gregorian leap-year test. -/
def isLeap (y : Nat) : Bool := (y % 4 == 0 && y % 100 != 0) || y % 400 == 0

/-- Days in calendar year `y`. -/
def yearLen (y : Nat) : Nat := if isLeap y then 366 else 365

/-- Month lengths of calendar year `y`, January first. -/
def monthLengths (y : Nat) : List Nat :=
  [31, if isLeap y then 29 else 28, 31, 30, 31, 30, 31, 31, 30, 31, 30, 31]

theorem yearLen_pos (y : Nat) : 0 < yearLen y := by
  unfold yearLen
  split <;> norm_num

/-- From year `y`, walk `z` days forward: the year reached and the remaining
day-of-year. -/
def findYear (y z : Nat) : Nat × Nat :=
  if z < yearLen y then (y, z) else findYear (y + 1) (z - yearLen y)
termination_by z
decreasing_by
  have h1 : 0 < yearLen y := yearLen_pos y
  omega

/-- Total days of the `n` consecutive years starting at year `y`. -/
def yearsDays : Nat → Nat → Nat
  | _, 0 => 0
  | y, n + 1 => yearLen y + yearsDays (y + 1) n

/-- Locate a day-of-year inside a month-length table: the month index and the
day-of-month remainder. -/
def splitMonths : List Nat → Nat → Option (Nat × Nat)
  | [], _ => none
  | len :: rest, z =>
    if z < len then some (0, z)
    else (splitMonths rest (z - len)).map (fun p => (p.1 + 1, p.2))

/-- Sum of the first `k` entries. -/
def sumTake (l : List Nat) (k : Nat) : Nat := (l.take k).sum

/-- The calendar fields of a formatted `MM/DD/YYYY HH:MM` date string. -/
structure DTFields where
  month : Nat
  day : Nat
  year : Nat
  hour : Nat
  minute : Nat

/-- The fields `strftime('%m/%d/%Y %H:%M')` renders for minute timestamp `m`
(minutes since 2024-01-01 00:00). -/
def formatDT (m : Nat) : DTFields :=
  let p := findYear 2024 (m / 1440)
  match splitMonths (monthLengths p.1) p.2 with
  | some q => ⟨q.1 + 1, q.2 + 1, p.1, m % 1440 / 60, m % 60⟩
  | none => ⟨1, 1, p.1, m % 1440 / 60, m % 60⟩

/-- `strptime`-style interpretation of calendar fields back to minutes since
2024-01-01 00:00, validating the field ranges. -/
def parseDT (f : DTFields) : Option Nat :=
  if 2024 ≤ f.year ∧ 1 ≤ f.month ∧ f.month ≤ 12 ∧ 1 ≤ f.day ∧
      f.day ≤ (monthLengths f.year).getD (f.month - 1) 0 ∧ f.hour ≤ 23 ∧ f.minute ≤ 59 then
    some ((yearsDays 2024 (f.year - 2024) + sumTake (monthLengths f.year) (f.month - 1) +
      (f.day - 1)) * 1440 + f.hour * 60 + f.minute)
  else none

theorem parseDT_def (mo d y h mi : Nat) :
    parseDT ⟨mo, d, y, h, mi⟩ =
      if 2024 ≤ y ∧ 1 ≤ mo ∧ mo ≤ 12 ∧ 1 ≤ d ∧
          d ≤ (monthLengths y).getD (mo - 1) 0 ∧ h ≤ 23 ∧ mi ≤ 59 then
        some ((yearsDays 2024 (y - 2024) + sumTake (monthLengths y) (mo - 1) + (d - 1)) * 1440 +
          h * 60 + mi)
      else none := rfl

theorem yearsDays_succ (y n : Nat) : yearsDays y (n + 1) = yearLen y + yearsDays (y + 1) n :=
  rfl

theorem findYear_spec (z : Nat) : ∀ y, y ≤ (findYear y z).1 ∧
    (findYear y z).2 < yearLen (findYear y z).1 ∧
    yearsDays y ((findYear y z).1 - y) + (findYear y z).2 = z := by
  induction z using Nat.strong_induction_on with
  | _ z ih =>
    intro y
    unfold findYear
    split
    · next h => exact ⟨le_refl y, by simpa using h, by simp [yearsDays]⟩
    · next h =>
      have hpos := yearLen_pos y
      have hlt : z - yearLen y < z := by omega
      obtain ⟨h1, h2, h3⟩ := ih (z - yearLen y) hlt (y + 1)
      refine ⟨by omega, h2, ?_⟩
      have hsub : (findYear (y + 1) (z - yearLen y)).1 - y =
          ((findYear (y + 1) (z - yearLen y)).1 - (y + 1)) + 1 := by omega
      rw [hsub, yearsDays_succ]
      omega

theorem sum_monthLengths (y : Nat) : (monthLengths y).sum = yearLen y := by
  unfold monthLengths yearLen
  cases h : isLeap y <;> simp [h]

theorem splitMonths_spec : ∀ (l : List Nat) (z i r : Nat), splitMonths l z = some (i, r) →
    i < l.length ∧ r < l.getD i 0 ∧ sumTake l i + r = z := by
  intro l
  induction l with
  | nil => intro z i r h; cases h
  | cons len rest ih =>
    intro z i r h
    unfold splitMonths at h
    split at h
    · next hlt =>
      cases h
      exact ⟨by simp, by simpa [List.getD_cons_zero] using hlt, by simp [sumTake]⟩
    · next hge =>
      rcases hsm : splitMonths rest (z - len) with _ | p
      · rw [hsm] at h; cases h
      · rw [hsm] at h
        cases h
        obtain ⟨h1, h2, h3⟩ := ih (z - len) p.1 p.2 (by rw [hsm])
        refine ⟨by simpa using h1, by simpa [List.getD_cons_succ] using h2, ?_⟩
        have hst : sumTake (len :: rest) (p.1 + 1) = len + sumTake rest p.1 := by
          simp [sumTake]
        rw [hst]
        omega

theorem splitMonths_total : ∀ (l : List Nat) (z : Nat), z < l.sum →
    ∃ p, splitMonths l z = some p := by
  intro l
  induction l with
  | nil => intro z h; simp at h
  | cons len rest ih =>
    intro z h
    unfold splitMonths
    split
    · exact ⟨(0, z), rfl⟩
    · next hge =>
      have hz : z - len < rest.sum := by
        simp [List.sum_cons] at h
        omega
      rcases ih (z - len) hz with ⟨p, hp⟩
      exact ⟨(p.1 + 1, p.2), by rw [hp]; rfl⟩

/-- Formatting a minute timestamp and interpreting the rendered fields gives
the timestamp back: `MM/DD/YYYY HH:MM` output parses to the same calendar
minute. -/
theorem parseDT_formatDT (m : Nat) : parseDT (formatDT m) = some m := by
  obtain ⟨hy1, hy2, hy3⟩ := findYear_spec (m / 1440) 2024
  have hsum : (findYear 2024 (m / 1440)).2 <
      (monthLengths (findYear 2024 (m / 1440)).1).sum := by
    rw [sum_monthLengths]
    exact hy2
  rcases splitMonths_total _ _ hsum with ⟨q, hq⟩
  obtain ⟨h1, h2, h3⟩ := splitMonths_spec _ _ q.1 q.2 (by rw [hq])
  have hfmt : formatDT m = ⟨q.1 + 1, q.2 + 1, (findYear 2024 (m / 1440)).1,
      m % 1440 / 60, m % 60⟩ := by
    simp only [formatDT]
    rw [hq]
  have hlen : (monthLengths (findYear 2024 (m / 1440)).1).length = 12 := rfl
  have hval : 2024 ≤ (findYear 2024 (m / 1440)).1 ∧ 1 ≤ q.1 + 1 ∧ q.1 + 1 ≤ 12 ∧
      1 ≤ q.2 + 1 ∧ q.2 + 1 ≤ (monthLengths (findYear 2024 (m / 1440)).1).getD
        (q.1 + 1 - 1) 0 ∧ m % 1440 / 60 ≤ 23 ∧ m % 60 ≤ 59 := by
    refine ⟨hy1, by omega, by omega, by omega, ?_, by omega, by omega⟩
    simp only [Nat.add_sub_cancel]
    omega
  rw [hfmt, parseDT_def, if_pos hval, Option.some_inj]
  simp only [Nat.add_sub_cancel]
  omega

/-! ### Rendering fields to characters and the comma-separated row format -/

/-- The decimal digit characters. -/
def decimalDigits : List Char := ['0', '1', '2', '3', '4', '5', '6', '7', '8', '9']

/-- The character of digit `n % 10`. -/
def digitChar (n : Nat) : Char := decimalDigits.getD (n % 10) '0'

/-- Decimal rendering of a natural number, most significant digit first. -/
def natChars (n : Nat) : List Char :=
  if n < 10 then [digitChar n] else natChars (n / 10) ++ [digitChar (n % 10)]
termination_by n
decreasing_by
  omega

/-- Zero-pad a rendered number on the left to width `k` (the `%m`, `%d`, `%H`,
`%M` two-digit and `%Y` four-digit paddings). -/
def padNum (k n : Nat) : List Char :=
  List.replicate (k - (natChars n).length) '0' ++ natChars n

/-- The characters of one `MM/DD/YYYY HH:MM` date string. -/
def renderDT (f : DTFields) : List Char :=
  padNum 2 f.month ++ '/' :: padNum 2 f.day ++ '/' :: padNum 4 f.year ++
    ' ' :: padNum 2 f.hour ++ ':' :: padNum 2 f.minute

/-- One CSV row: the fields joined by commas (`csv.DictWriter` quotes no field
the generator emits, since none contains a comma, quote or newline). -/
def joinRow : List (List Char) → List Char
  | [] => []
  | [f] => f
  | f :: fs => f ++ ',' :: joinRow fs

/-- Splitting a row at commas, the reader's inverse. -/
def splitRowAux : List Char → List Char → List (List Char)
  | [], acc => [acc.reverse]
  | c :: cs, acc =>
    if c = ',' then acc.reverse :: splitRowAux cs [] else splitRowAux cs (c :: acc)

def splitRow (l : List Char) : List (List Char) := splitRowAux l []

theorem digitChar_ne_comma (n : Nat) : digitChar n ≠ ',' := by
  unfold digitChar
  have hlt : n % 10 < decimalDigits.length := by
    unfold decimalDigits
    simp
    omega
  rw [List.getD_eq_getElem?_getD, List.getElem?_eq_getElem hlt]
  have hmem := List.getElem_mem hlt
  revert hmem
  generalize decimalDigits[n % 10] = c
  intro hmem
  intro habs
  subst habs
  exact absurd hmem (by decide)

theorem comma_not_mem_natChars (n : Nat) : (',' : Char) ∉ natChars n := by
  induction n using Nat.strong_induction_on with
  | _ n ih =>
    unfold natChars
    split
    · intro hmem
      exact digitChar_ne_comma n (List.mem_singleton.mp hmem).symm
    · next hge =>
      intro hmem
      rcases List.mem_append.mp hmem with h1 | h2
      · exact ih (n / 10) (by omega) h1
      · exact digitChar_ne_comma (n % 10) (List.mem_singleton.mp h2).symm

theorem comma_not_mem_padNum (k n : Nat) : (',' : Char) ∉ padNum k n := by
  unfold padNum
  intro hmem
  rcases List.mem_append.mp hmem with h1 | h2
  · exact absurd (List.eq_of_mem_replicate h1) (by decide)
  · exact comma_not_mem_natChars n h2

theorem comma_not_mem_renderDT (f : DTFields) : (',' : Char) ∉ renderDT f := by
  unfold renderDT
  intro hmem
  simp only [List.mem_append, List.mem_cons] at hmem
  rcases hmem with (((h | h | h) | h | h) | h | h) | h | h
  · exact comma_not_mem_padNum 2 f.month h
  · exact absurd h (by decide)
  · exact comma_not_mem_padNum 2 f.day h
  · exact absurd h (by decide)
  · exact comma_not_mem_padNum 4 f.year h
  · exact absurd h (by decide)
  · exact comma_not_mem_padNum 2 f.hour h
  · exact absurd h (by decide)
  · exact comma_not_mem_padNum 2 f.minute h

theorem splitRowAux_nil (acc : List Char) : splitRowAux [] acc = [acc.reverse] := rfl

theorem splitRowAux_cons (c : Char) (cs acc : List Char) :
    splitRowAux (c :: cs) acc =
      if c = ',' then acc.reverse :: splitRowAux cs [] else splitRowAux cs (c :: acc) := rfl

theorem splitRowAux_no_comma (f : List Char) :
    ∀ acc, (',' : Char) ∉ f → splitRowAux f acc = [acc.reverse ++ f] := by
  induction f with
  | nil =>
    intro acc h
    simp [splitRowAux]
  | cons c cs ih =>
    intro acc h
    have hc : ¬ c = ',' := fun habs => h (habs ▸ List.mem_cons_self c cs)
    rw [splitRowAux_cons, if_neg hc, ih (c :: acc) (fun hm => h (List.mem_cons_of_mem c hm))]
    simp

theorem splitRowAux_comma (f rest : List Char) :
    ∀ acc, (',' : Char) ∉ f →
      splitRowAux (f ++ ',' :: rest) acc = (acc.reverse ++ f) :: splitRowAux rest [] := by
  induction f with
  | nil =>
    intro acc h
    simp [splitRowAux]
  | cons c cs ih =>
    intro acc h
    have hc : ¬ c = ',' := fun habs => h (habs ▸ List.mem_cons_self c cs)
    rw [List.cons_append, splitRowAux_cons, if_neg hc,
      ih (c :: acc) (fun hm => h (List.mem_cons_of_mem c hm))]
    simp

theorem splitRow_joinRow (fields : List (List Char)) (hne : fields ≠ [])
    (hc : ∀ f ∈ fields, (',' : Char) ∉ f) : splitRow (joinRow fields) = fields := by
  induction fields with
  | nil => exact absurd rfl hne
  | cons f fs ih =>
    cases fs with
    | nil =>
      show splitRowAux (joinRow [f]) [] = [f]
      rw [show joinRow [f] = f from rfl,
        splitRowAux_no_comma f [] (hc f (List.mem_cons_self f []))]
      simp
    | cons f2 fs2 =>
      show splitRowAux (joinRow (f :: f2 :: fs2)) [] = f :: f2 :: fs2
      rw [show joinRow (f :: f2 :: fs2) = f ++ ',' :: joinRow (f2 :: fs2) from rfl,
        splitRowAux_comma f _ [] (hc f (List.mem_cons_self f _))]
      simp only [List.reverse_nil, List.nil_append]
      rw [show splitRowAux (joinRow (f2 :: fs2)) [] = splitRow (joinRow (f2 :: fs2)) from rfl,
        ih (by simp) (fun g hg => hc g (List.mem_cons_of_mem f hg))]

/-! ### The generated field contents contain no comma -/

theorem getD_mem_or (l : List String) (i : Nat) (d : String) :
    l.getD i d ∈ l ∨ l.getD i d = d := by
  by_cases h : i < l.length
  · left
    rw [List.getD_eq_getElem?_getD, List.getElem?_eq_getElem h]
    exact List.getElem_mem h
  · right
    rw [List.getD_eq_getElem?_getD, List.getElem?_eq_none (by omega)]
    rfl

theorem comma_not_mem_productOf (dr : TicketDraws) : (',' : Char) ∉ (productOf dr).data := by
  have h := getD_mem_or products (dr.productChoice % products.length) ""
  rw [show products.getD (dr.productChoice % products.length) "" = productOf dr from rfl] at h
  rcases h with hmem | hdef
  · unfold products at hmem
    simp only [List.mem_cons, List.not_mem_nil, or_false] at hmem
    rcases hmem with h | h | h <;> rw [h] <;> decide
  · rw [hdef]
    decide

theorem issueTypes_comma_free (p s : String) (h : s ∈ issueTypes p) :
    (',' : Char) ∉ s.data := by
  unfold issueTypes at h
  split_ifs at h <;>
    (simp only [List.mem_cons, List.not_mem_nil, or_false] at h
     rcases h with h | h | h | h | h <;> rw [h] <;> decide)

theorem comma_not_mem_issueOf (dr : TicketDraws) : (',' : Char) ∉ (issueOf dr).data := by
  have h := getD_mem_or (issueTypes (productOf dr))
    (dr.issueChoice % (issueTypes (productOf dr)).length) ""
  rw [show (issueTypes (productOf dr)).getD
    (dr.issueChoice % (issueTypes (productOf dr)).length) "" = issueOf dr from rfl] at h
  rcases h with hmem | hdef
  · exact issueTypes_comma_free _ _ hmem
  · rw [hdef]
    decide

theorem comma_not_mem_priorityOf (dr : TicketDraws) : (',' : Char) ∉ (priorityOf dr).data := by
  have h := getD_mem_or priorities (dr.priorityChoice % priorities.length) ""
  rw [show priorities.getD (dr.priorityChoice % priorities.length) "" = priorityOf dr
    from rfl] at h
  rcases h with hmem | hdef
  · unfold priorities at hmem
    simp only [List.mem_cons, List.not_mem_nil, or_false] at hmem
    rcases hmem with h | h | h | h <;> rw [h] <;> decide
  · rw [hdef]
    decide

theorem comma_not_mem_agentOf (dr : TicketDraws) : (',' : Char) ∉ (agentOf dr).data := by
  have h := getD_mem_or supportAgents (dr.agentChoice % supportAgents.length) ""
  rw [show supportAgents.getD (dr.agentChoice % supportAgents.length) "" = agentOf dr
    from rfl] at h
  rcases h with hmem | hdef
  · unfold supportAgents at hmem
    simp only [List.mem_cons, List.not_mem_nil, or_false] at hmem
    rcases hmem with h | h | h | h | h | h <;> rw [h] <;> decide
  · rw [hdef]
    decide

theorem comma_not_mem_getResolution (issue : String) (choice : Nat) (isReopened : Bool) :
    (',' : Char) ∉ (getResolution issue choice isReopened).data := by
  unfold getResolution
  rcases hres : resolutionsFor issue with _ | l
  all_goals simp only [hres]
  · cases isReopened <;> decide
  · rw [String.data_append]
    intro hmem
    rcases List.mem_append.mp hmem with h1 | h2
    · rcases getD_mem_or l (choice % l.length) "Issue Resolved" with hmem2 | hdef
      · exact (resolutionsFor_strings issue l hres _ hmem2).2 h1
      · rw [hdef] at h1
        exact absurd h1 (by decide)
    · revert h2
      cases isReopened <;> decide

/-! ### The serialized file -/

/-- A DateClosed CSV field: the empty-string sentinel or the formatted date. -/
def dateField : Option ℤ → List Char
  | none => []
  | some m => renderDT (formatDT m.toNat)

/-- The nine column values of one record, as written by `csv.DictWriter` in
the fixed field order of `save_to_csv`. -/
def fieldStrings (t : Ticket) : List (List Char) :=
  [natChars t.ticketID, renderDT (formatDT t.dateOpened.toNat), dateField t.dateClosed,
    t.product.data, t.issue.data, t.priority.data, t.status.data, t.assignedTo.data,
    t.resolution.data]

/-- One written CSV row. -/
def csvRow (t : Ticket) : List Char := joinRow (fieldStrings t)

/-- The header row `writer.writeheader()` emits. -/
def csvHeader : List Char :=
  ("TicketID,DateOpened,DateClosed,Product,Issue,Priority,Status,AssignedTo," ++
    "Resolution").data

/-- `save_to_csv`: the header row followed by one row per ticket. -/
def saveToCsv (ts : List Ticket) : List (List Char) := csvHeader :: ts.map csvRow

theorem fields_comma_free (fuel ticketId : Nat) (dr : TicketDraws) (t : Ticket)
    (h : makeTicket fuel ticketId dr = some t) :
    ∀ f ∈ fieldStrings t, (',' : Char) ∉ f := by
  rcases (makeTicket_some_iff fuel ticketId dr t).mp h with ⟨dc, hwl, ht⟩
  subst ht
  intro f hf
  unfold fieldStrings at hf
  simp only [List.mem_cons, List.not_mem_nil, or_false] at hf
  rcases hf with h1 | h1 | h1 | h1 | h1 | h1 | h1 | h1 | h1
  · rw [h1]
    exact comma_not_mem_natChars _
  · rw [h1]
    exact comma_not_mem_renderDT _
  · rw [h1]
    unfold dateField
    cases (ticketFor ticketId dr dc).dateClosed with
    | none => simp
    | some m => exact comma_not_mem_renderDT _
  · rw [h1]
    exact comma_not_mem_productOf dr
  · rw [h1]
    exact comma_not_mem_issueOf dr
  · rw [h1]
    exact comma_not_mem_priorityOf dr
  · rw [h1]
    have hstat : (ticketFor ticketId dr dc).status = (outcome dr dc (issueOf dr)).1 := rfl
    rw [hstat]
    rcases outcome_spec dr dc (issueOf dr) with hsp | hsp | hsp | hsp
    · rw [hsp.1]
      exact (by decide : (',' : Char) ∉ ("Reopened Closed" : String).data)
    · rw [hsp.1]
      exact (by decide : (',' : Char) ∉ ("Reopened Open" : String).data)
    · rw [hsp]
      exact (by decide : (',' : Char) ∉ ("Open" : String).data)
    · rw [hsp.1]
      exact (by decide : (',' : Char) ∉ ("Closed" : String).data)
  · rw [h1]
    exact comma_not_mem_agentOf dr
  · rw [h1]
    have hres : (ticketFor ticketId dr dc).resolution = (outcome dr dc (issueOf dr)).2.2 := rfl
    rw [hres]
    rcases outcome_spec dr dc (issueOf dr) with hsp | hsp | hsp | hsp
    · rw [hsp.1]
      exact comma_not_mem_getResolution (issueOf dr) dr.resChoice true
    · rw [hsp.1]
      exact (by decide : (',' : Char) ∉ ("" : String).data)
    · rw [hsp]
      exact (by decide : (',' : Char) ∉ ("" : String).data)
    · rw [hsp.1]
      exact comma_not_mem_getResolution (issueOf dr) dr.resChoice false

/-- C9: serializing a generated ticket list to the output file and re-parsing
the file yields the same number of records with identical field values, and
every formatted DateOpened/DateClosed string parses back to exactly the
calendar minute stored for the ticket (the minute truncation of the in-memory
timestamp). -/
theorem c9_csv_roundtrip (fuel : Nat) (o : Nat → TicketDraws) (n : ℤ) (ts : List Ticket)
    (hg : generate fuel o n = some ts) :
    (saveToCsv ts).tail.map splitRow = ts.map fieldStrings ∧
      (saveToCsv ts).tail.length = ts.length ∧
      ∀ t ∈ ts, parseDT (formatDT t.dateOpened.toNat) = some t.dateOpened.toNat ∧
        ∀ m, t.dateClosed = some m → parseDT (formatDT m.toNat) = some m.toNat := by
  refine ⟨?_, by simp [saveToCsv],
    fun t hmem => ⟨parseDT_formatDT _, fun m hm => parseDT_formatDT _⟩⟩
  show (ts.map csvRow).map splitRow = ts.map fieldStrings
  rw [List.map_map]
  apply List.map_congr_left
  intro t hmem
  show splitRow (csvRow t) = fieldStrings t
  unfold generate at hg
  rcases generateAux_mem fuel o n.toNat 0 ts t hg hmem with ⟨k, hmk⟩
  exact splitRow_joinRow (fieldStrings t) (by simp [fieldStrings])
    (fields_comma_free fuel (1001 + k) (o k) t hmk)

theorem generate_sample : generate 0 (fun _ => sampleDraws) 1 = some [sampleTicket] := by
  show generateAux 0 (fun _ => sampleDraws) 0 1 = some [sampleTicket]
  rw [generateAux_succ]
  rw [show makeTicket 0 (1001 + 0) ((fun _ => sampleDraws) 0) = some sampleTicket from
    makeTicket_sample 0]
  rfl

/-- Witness for C9 at a concrete one-ticket run. -/
theorem c9_csv_roundtrip_witness :
    (saveToCsv [sampleTicket]).tail.map splitRow = [sampleTicket].map fieldStrings ∧
      (saveToCsv [sampleTicket]).tail.length = [sampleTicket].length ∧
      ∀ t ∈ [sampleTicket], parseDT (formatDT t.dateOpened.toNat) =
          some t.dateOpened.toNat ∧
        ∀ m, t.dateClosed = some m → parseDT (formatDT m.toNat) = some m.toNat :=
  c9_csv_roundtrip 0 (fun _ => sampleDraws) 1 [sampleTicket] generate_sample
